import Mathlib

/-!
# Maritime Intelligence Exporter — verification of the simulation engine

Shallow embedding of `src/monitoring/exporters/maritime_exporter.py`
(class `EnhancedMaritimeExporter`).  Python floats are modelled as `ℚ`,
Python ints as `ℤ`/`ℕ`.  Every call to the `random` module is replaced by
an explicit draw recorded in an environment structure; the validity
predicates below record exactly the ranges the source draws from
(`random.uniform(a, b)` gives a value in `[a, b]`, `random.randint(a, b)`
an integer in `[a, b]`, both ends included).  The trigonometric factors
`math.cos(math.radians(heading))` and `math.sin(math.radians(heading))`
are irrational in general, so the movement step receives them as the two
rational parameters `cosHeading`/`sinHeading` of the tick environment;
nothing below depends on their exact values beyond concrete instances
where the heading is 0 (cos = 1, sin = 0).

Only state-mutating code is embedded; publish-only gauge writes
(`.labels(...).set(...)`) with no effect on engine state are represented
by the returned metric values where a claim mentions them and omitted
otherwise.
-/

namespace Maritime

/-- Vessel status, `vessel['status']` in the source
(`'underway' | 'at_anchor' | 'in_port' | 'waiting_berth'`). -/
inductive VStatus where
  | underway
  | at_anchor
  | in_port
  | waiting_berth
deriving DecidableEq

/-- A vessel record, the dictionary built by `_initialize_vessels`.
Timestamps (`eta`, `actual_arrival`, `last_port_departure`,
`last_inspection`) are modelled as rational epoch offsets; string-valued
fields are kept as `String`.  `id` is the numeric part of `f'V{i+1:04d}'`. -/
structure Vessel where
  id : ℕ
  type : String
  type_name : String
  flag : String
  operator : String
  capacity : ℕ
  current_cargo : ℕ
  fuel_level : ℚ
  daily_fuel_consumption : ℚ
  max_speed : ℚ
  daily_revenue : ℚ
  latitude : ℚ
  longitude : ℚ
  speed : ℚ
  heading : ℚ
  status : VStatus
  eta : ℚ
  actual_arrival : Option ℚ
  ais_signal_quality : ℚ
  compliance_violations : ℕ
deriving DecidableEq

/-- The random draws consumed by one call of `_simulate_vessel_movement`
for one vessel, plus the two trigonometric factors of its heading. -/
structure MoveEnv where
  speedVariation : ℚ
  arrive : Bool
  arrivalToPort : Bool
  arrivalSpeed : ℚ
  getBerth : Bool
  waitSpeed : ℚ
  depart : Bool
  departSpeed : ℚ
  etaOffsetHours : ℚ
  now : ℚ
  cosHeading : ℚ
  sinHeading : ℚ

/-- Ranges of the draws in `_simulate_vessel_movement`:
`speed_variation = uniform(-1, 1)`, arrival speed `uniform(0, 3)`,
waiting-berth speed `uniform(0, 2)`, departure speed
`uniform(8, max_speed)`, new eta offset `randint(-72, 168)` hours, and
the heading factors are a cosine/sine pair. -/
@[reducible] def ValidMoveEnv (max_speed : ℚ) (e : MoveEnv) : Prop :=
  -1 ≤ e.speedVariation ∧ e.speedVariation ≤ 1 ∧
  0 ≤ e.arrivalSpeed ∧ e.arrivalSpeed ≤ 3 ∧
  0 ≤ e.waitSpeed ∧ e.waitSpeed ≤ 2 ∧
  8 ≤ e.departSpeed ∧ e.departSpeed ≤ max_speed ∧
  -72 ≤ e.etaOffsetHours ∧ e.etaOffsetHours ≤ 168 ∧
  -1 ≤ e.cosHeading ∧ e.cosHeading ≤ 1 ∧
  -1 ≤ e.sinHeading ∧ e.sinHeading ≤ 1

/-- The status state machine at the top of `_simulate_vessel_movement`:
the `if/elif` chain on `vessel['status']` (lines 504–527). -/
def statusStep (v : Vessel) (e : MoveEnv) : Vessel :=
  match v.status with
  | .underway =>
      let v1 := { v with speed := max 0 (min v.max_speed (v.speed + e.speedVariation)) }
      if e.arrive then
        { v1 with
          status := if e.arrivalToPort then .in_port else .waiting_berth
          actual_arrival := some e.now
          speed := e.arrivalSpeed }
      else v1
  | .waiting_berth =>
      let v1 := { v with speed := e.waitSpeed }
      if e.getBerth then { v1 with status := .in_port } else v1
  | .in_port =>
      let v1 := { v with speed := 0 }
      if e.depart then
        { v1 with
          status := .underway
          eta := e.now + e.etaOffsetHours
          speed := e.departSpeed }
      else v1
  | .at_anchor => v

/-- Fuel update (lines 529–531):
`fuel_consumption_rate = 0.001 + (speed / max_speed) * 0.01` and
`fuel_level = max(0, fuel_level - fuel_consumption_rate)`. -/
def fuelStep (v : Vessel) : Vessel :=
  let fuel_consumption_rate := 1 / 1000 + (v.speed / v.max_speed) * (1 / 100)
  { v with fuel_level := max 0 (v.fuel_level - fuel_consumption_rate) }

/-- Position update (lines 533–546), guarded by `vessel['speed'] > 0`:
knots to m/s (`* 0.514444`), 300-second update cycle, 111000 m per
degree, decomposed along the heading and clamped to the valid ranges. -/
def moveStep (v : Vessel) (e : MoveEnv) : Vessel :=
  if 0 < v.speed then
    let speed_ms := v.speed * (514444 / 1000000)
    let distance_deg := speed_ms * 300 / 111000
    let lat_change := distance_deg * e.cosHeading
    let lon_change := distance_deg * e.sinHeading
    { v with
      latitude := max (-90) (min 90 (v.latitude + lat_change))
      longitude := max (-180) (min 180 (v.longitude + lon_change)) }
  else v

/-- `_simulate_vessel_movement`: status machine, then fuel, then motion. -/
def simulateVesselMovement (v : Vessel) (e : MoveEnv) : Vessel :=
  moveStep (fuelStep (statusStep v e)) e

/-- Folding one vessel through a list of per-tick environments. -/
def runVessel (v : Vessel) (envs : List MoveEnv) : Vessel :=
  envs.foldl simulateVesselMovement v

/-- A port record, the dictionary built by `_initialize_ports`
(mutable simulation fields only; terminals are publish-only labels). -/
structure Port where
  code : String
  name : String
  country : String
  country_code : String
  latitude : ℚ
  longitude : ℚ
  berth_capacity : ℕ
  current_occupancy : ℚ
  queue_length : ℤ
  avg_turnaround_container : ℚ
  avg_turnaround_bulk : ℚ
  avg_turnaround_tanker : ℚ
  throughput_teu_per_hour : ℚ
  inspection_rate : ℚ
deriving DecidableEq

/-- The random draws consumed for one port by one call of
`_update_port_authority_metrics`:
`occDelta = uniform(-3, 3)`, `queueDelta = randint(-2, 3)`. -/
structure PortEnv where
  occDelta : ℚ
  queueDelta : ℤ

/-- Ranges of the per-port draws. -/
@[reducible] def ValidPortEnv (e : PortEnv) : Prop :=
  -3 ≤ e.occDelta ∧ e.occDelta ≤ 3 ∧ -2 ≤ e.queueDelta ∧ e.queueDelta ≤ 3

/-- The state mutation of `_update_port_authority_metrics`
(lines 344–352): occupancy random walk clamped to `[20, 100]`, queue
random walk clamped to `[0, berth_capacity]`. -/
def updatePortState (p : Port) (e : PortEnv) : Port :=
  { p with
    current_occupancy := max 20 (min 100 (p.current_occupancy + e.occDelta))
    queue_length := max 0 (min (p.berth_capacity : ℤ) (p.queue_length + e.queueDelta)) }

/-- The derived per-port values published on each tick that the claims
mention.  `berths_occupied = int((occupancy/100) * berth_capacity)`:
Python `int()` truncates toward zero, which agrees with `⌊·⌋` because
occupancy has just been clamped to be nonnegative. -/
structure PortMetricValues where
  congestion_index : ℚ
  berths_occupied : ℤ

/-- `_update_port_authority_metrics` for one port: mutate the state,
then derive
`congestion_index = min(100, (occ/100)*70 + (queue/capacity)*30)`
(lines 354–360, `occupancy_weight = 70`, `queue_weight = 30`) and
`berths_occupied` (line 348) from the updated state. -/
def updatePortAuthorityMetrics (p : Port) (e : PortEnv) : Port × PortMetricValues :=
  let p1 := updatePortState p e
  let queue_weight : ℚ := 30
  let occupancy_weight : ℚ := 70
  let congestion_index :=
    min 100 ((p1.current_occupancy / 100) * occupancy_weight +
      ((p1.queue_length : ℚ) / (p1.berth_capacity : ℚ)) * queue_weight)
  let berths_occupied := ⌊(p1.current_occupancy / 100) * (p1.berth_capacity : ℚ)⌋
  (p1, ⟨congestion_index, berths_occupied⟩)

/-- Label tuple of the `cargo_volume_by_type_teu_total` counter:
`(port_code, cargo_type, origin_country, destination_country)`. -/
structure CargoKey where
  port_code : String
  cargo_type : String
  origin_country : String
  destination_country : String
deriving DecidableEq

/-- Label tuple of the `trade_route_volume_teu_total` counter:
`(origin_port, destination_port, cargo_type)`. -/
structure RouteKey where
  origin_port : String
  destination_port : String
  cargo_type : String
deriving DecidableEq

/-- The two families of cumulative Prometheus counters kept by the
exporter, as total maps from label tuples to accumulated TEU volume. -/
structure Counters where
  cargo_volume_by_type : CargoKey → ℕ
  trade_route_volume : RouteKey → ℕ

/-- The draws of the 30%-probability cargo-movement branch of
`_update_customs_metrics` (lines 419–434), taken when
`random.random() < 0.3` fires: one port/cargo-type/origin/destination
pick, one `volume = randint(50, 500)`, and one origin/destination port
pick.  `none` models the branch not being taken. -/
structure CargoDraw where
  port_code : String
  cargo_type : String
  origin_country : String
  destination_country : String
  volume : ℕ
  origin_port : String
  destination_port : String

/-- Range of the cargo-movement volume draw. -/
@[reducible] def ValidCargoDraw (d : CargoDraw) : Prop :=
  50 ≤ d.volume ∧ d.volume ≤ 500

/-- The counter mutation of `_update_customs_metrics`: if the 30% branch
fired, `inc(volume)` on one label of each family; otherwise no change. -/
def updateTradeCounters (c : Counters) (d : Option CargoDraw) : Counters :=
  match d with
  | none => c
  | some dr =>
      { cargo_volume_by_type := fun k =>
          if k = ⟨dr.port_code, dr.cargo_type, dr.origin_country, dr.destination_country⟩ then
            c.cargo_volume_by_type k + dr.volume
          else c.cargo_volume_by_type k
        trade_route_volume := fun k =>
          if k = ⟨dr.origin_port, dr.destination_port, dr.cargo_type⟩ then
            c.trade_route_volume k + dr.volume
          else c.trade_route_volume k }

/-- The compliance factor list of `_update_customs_metrics`
(lines 470–474): `[100 if not speed_violation else 70,
ais_signal_quality, 90 if violations == 0 else
max(60, 90 - violations * 10)]`. -/
def complianceFactors (speed_violation : Bool) (ais : ℚ) (violations : ℕ) : List ℚ :=
  [if speed_violation then 70 else 100,
   ais,
   if violations = 0 then 90 else max 60 (90 - (violations : ℚ) * 10)]

/-- `compliance_score = sum(compliance_factors) / len(compliance_factors)`
(line 475). -/
def complianceScore (speed_violation : Bool) (ais : ℚ) (violations : ℕ) : ℚ :=
  (complianceFactors speed_violation ais violations).sum /
    ((complianceFactors speed_violation ais violations).length : ℚ)

/-- Per-vessel part of `_update_customs_metrics` (lines 451–479):
speed-violation flag against the sampled zone speed limit, AIS
signal-quality random walk (`+= uniform(-2, 1)`, clamped to
`[60, 100]`), then the compliance score from the updated signal
quality.  Returns the mutated vessel and the published score. -/
def updateCustomsVessel (v : Vessel) (speed_limit : ℚ) (aisDelta : ℚ) : Vessel × ℚ :=
  let speed_violation : Bool := speed_limit < v.speed
  let v1 := { v with ais_signal_quality := max 60 (min 100 (v.ais_signal_quality + aisDelta)) }
  (v1, complianceScore speed_violation v1.ais_signal_quality v.compliance_violations)

/-- Range of the per-vessel customs draws: the zone speed limit is
`choice([12, 15, 20, 25])` and the AIS step is `uniform(-2, 1)`. -/
@[reducible] def ValidCustomsDraw (speed_limit aisDelta : ℚ) : Prop :=
  (speed_limit = 12 ∨ speed_limit = 15 ∨ speed_limit = 20 ∨ speed_limit = 25) ∧
  -2 ≤ aisDelta ∧ aisDelta ≤ 1

/-- Whole-simulation state: the two entity collections owned by the
exporter plus the cumulative counters held by the Prometheus registry. -/
structure SimState where
  vessels : List Vessel
  ports : List Port
  counters : Counters

/-- All random draws consumed by one call of `_update_all_metrics`,
indexed per vessel / per port where the source draws inside a loop. -/
structure TickEnv where
  moveEnvs : ℕ → MoveEnv
  portEnvs : ℕ → PortEnv
  cargoDraw : Option CargoDraw
  speedLimits : ℕ → ℚ
  aisDeltas : ℕ → ℚ

/-- `List.map` with the element index passed to the function, the index
of the first element being `k`. -/
def mapIdxFrom (f : ℕ → α → β) : ℕ → List α → List β
  | _, [] => []
  | k, a :: as => f k a :: mapIdxFrom f (k + 1) as

/-- State mutation of `_update_shipping_company_metrics`: it runs
`_simulate_vessel_movement` on every vessel (line 290); everything else
in that method is publish-only. -/
def updateShippingCompanyMetrics (e : TickEnv) (s : SimState) : SimState :=
  { s with vessels := mapIdxFrom (fun i v => simulateVesselMovement v (e.moveEnvs i)) 0 s.vessels }

/-- State mutation of `_update_port_authority_metrics` over all ports. -/
def updatePortAuthorityAll (e : TickEnv) (s : SimState) : SimState :=
  { s with ports := mapIdxFrom (fun i p => (updatePortAuthorityMetrics p (e.portEnvs i)).1) 0 s.ports }

/-- State mutation of `_update_customs_metrics`: the cumulative-counter
increments and the per-vessel AIS walk. -/
def updateCustomsMetrics (e : TickEnv) (s : SimState) : SimState :=
  { s with
    counters := updateTradeCounters s.counters e.cargoDraw
    vessels := mapIdxFrom (fun i v => (updateCustomsVessel v (e.speedLimits i) (e.aisDeltas i)).1) 0 s.vessels }

/-- `_update_all_metrics`: shipping-company metrics, then port-authority
metrics, then customs metrics (`_update_vessel_positions` is
publish-only and mutates nothing). -/
def updateAllMetrics (s : SimState) (e : TickEnv) : SimState :=
  updateCustomsMetrics e (updatePortAuthorityAll e (updateShippingCompanyMetrics e s))

/-- Running the full per-tick update over a list of tick environments. -/
def runTicks (s : SimState) (envs : List TickEnv) : SimState :=
  envs.foldl updateAllMetrics s

/-- `_generate_historical_data`: `for i in range(144):
self._update_all_metrics(...)` — the full per-tick update executed once
per iteration of `range(144)` before the HTTP endpoint is started
(`main` constructs the exporter, whose `__init__` calls this, before
`start_http_server`). -/
def generateHistoricalData (envs : ℕ → TickEnv) (s : SimState) : SimState :=
  (List.range 144).foldl (fun st i => updateAllMetrics st (envs i)) s

/-- One row of the `vessel_types` table at the top of
`_initialize_vessels`: `(name, code, min_teu, max_teu, min_speed,
max_speed, min_revenue, max_revenue)`. -/
structure VesselTypeData where
  type_name : String
  code : String
  min_teu : ℕ
  max_teu : ℕ
  min_speed : ℚ
  max_speed : ℚ
  min_revenue : ℚ
  max_revenue : ℚ
deriving DecidableEq

/-- The five rows of the `vessel_types` table (lines 147–153). -/
def vesselTypes : List VesselTypeData :=
  [⟨"Container Ship", "CONTAINER", 2000, 8000, 15, 25, 80000, 150000⟩,
   ⟨"Bulk Carrier", "BULK", 1000, 4000, 12, 18, 40000, 80000⟩,
   ⟨"Tanker", "TANKER", 500, 2000, 10, 16, 60000, 120000⟩,
   ⟨"General Cargo", "GENERAL", 200, 1000, 8, 14, 20000, 50000⟩,
   ⟨"RoRo", "RORO", 300, 1500, 12, 20, 30000, 70000⟩]

/-- The random draws consumed by one loop iteration of
`_initialize_vessels` when creating one vessel. -/
structure VesselInitDraws where
  typeData : VesselTypeData
  vname : String
  flag : String
  operator : String
  capacity : ℕ
  fuel_level : ℚ
  daily_fuel_consumption : ℚ
  max_speed : ℚ
  daily_revenue : ℚ
  latitude : ℚ
  longitude : ℚ
  speed : ℚ
  heading : ℚ
  status : VStatus
  etaHours : ℚ
  lastDepartureHoursAgo : ℚ
  ais_signal_quality : ℚ
  compliance_violations : ℕ
  cargoLoad : ℕ

/-- Ranges of the creation draws (lines 160–201):
`fuel_level = uniform(30, 95)`, `daily_fuel_consumption =
uniform(50, 300)`, `max_speed = uniform(type.min_speed,
type.max_speed)`, `daily_revenue = uniform(type.min_revenue,
type.max_revenue)`, `latitude = uniform(-60, 70)`, `longitude =
uniform(-180, 180)`, `speed = uniform(0, type.max_speed)` — note: the
upper end is the TYPE's maximum speed (`vessel_type_data[5]`), not the
vessel's own `max_speed` draw — `heading = uniform(0, 360)`,
`ais_signal_quality = uniform(85, 100)`, `compliance_violations =
randint(0, 3)`.  (The cargo-load draw range is not recorded here; no
claim depends on it.) -/
@[reducible] def ValidVesselInitDraws (d : VesselInitDraws) : Prop :=
  d.typeData ∈ vesselTypes ∧
  d.typeData.min_teu ≤ d.capacity ∧ d.capacity ≤ d.typeData.max_teu ∧
  30 ≤ d.fuel_level ∧ d.fuel_level ≤ 95 ∧
  50 ≤ d.daily_fuel_consumption ∧ d.daily_fuel_consumption ≤ 300 ∧
  d.typeData.min_speed ≤ d.max_speed ∧ d.max_speed ≤ d.typeData.max_speed ∧
  d.typeData.min_revenue ≤ d.daily_revenue ∧ d.daily_revenue ≤ d.typeData.max_revenue ∧
  -60 ≤ d.latitude ∧ d.latitude ≤ 70 ∧
  -180 ≤ d.longitude ∧ d.longitude ≤ 180 ∧
  0 ≤ d.speed ∧ d.speed ≤ d.typeData.max_speed ∧
  0 ≤ d.heading ∧ d.heading ≤ 360 ∧
  85 ≤ d.ais_signal_quality ∧ d.ais_signal_quality ≤ 100 ∧
  d.compliance_violations ≤ 3

/-- The vessel dictionary built for index `i` by one iteration of the
`_initialize_vessels` loop (lines 166–202): `current_cargo` is the
drawn load when the status is `underway` or `at_anchor` and the
initial `0` otherwise. -/
def initializeVessel (i : ℕ) (d : VesselInitDraws) : Vessel :=
  { id := i + 1
    type := d.typeData.code
    type_name := d.typeData.type_name
    flag := d.flag
    operator := d.operator
    capacity := d.capacity
    current_cargo :=
      if d.status = .underway ∨ d.status = .at_anchor then d.cargoLoad else 0
    fuel_level := d.fuel_level
    daily_fuel_consumption := d.daily_fuel_consumption
    max_speed := d.max_speed
    daily_revenue := d.daily_revenue
    latitude := d.latitude
    longitude := d.longitude
    speed := d.speed
    heading := d.heading
    status := d.status
    eta := d.etaHours
    actual_arrival := none
    ais_signal_quality := d.ais_signal_quality
    compliance_violations := d.compliance_violations }

/-- The numeric-bounds part of the spec's vessel invariant, with the
speed bound taken against an explicit upper bound `smax`. -/
def VesselNumInv (smax : ℚ) (v : Vessel) : Prop :=
  -90 ≤ v.latitude ∧ v.latitude ≤ 90 ∧
  -180 ≤ v.longitude ∧ v.longitude ≤ 180 ∧
  0 ≤ v.speed ∧ v.speed ≤ smax ∧
  0 ≤ v.fuel_level ∧ v.fuel_level ≤ 100

/-- The per-tick frame of a vessel: the fields never written by the
update cycle.  `FrameEq v w` says `w` agrees with `v` on all of them. -/
def FrameEq (v w : Vessel) : Prop :=
  w.id = v.id ∧ w.type = v.type ∧ w.operator = v.operator ∧ w.flag = v.flag ∧
  w.capacity = v.capacity ∧ w.daily_fuel_consumption = v.daily_fuel_consumption ∧
  w.daily_revenue = v.daily_revenue ∧ w.current_cargo = v.current_cargo ∧
  w.compliance_violations = v.compliance_violations

/-- The `Container Ship` row of the vessel-type table. -/
def containerTypeData : VesselTypeData :=
  ⟨"Container Ship", "CONTAINER", 2000, 8000, 15, 25, 80000, 150000⟩

/-- A concrete creation draw allowed by the ranges of
`_initialize_vessels`: a container ship whose own `max_speed` draw came
out at the low end (15 kn) while the initial `speed` draw — taken from
`uniform(0, 25)`, the TYPE's upper speed, line 183 — came out at 20 kn. -/
def anchorInitDraws : VesselInitDraws :=
  { typeData := containerTypeData
    vname := "Star Trader"
    flag := "MH"
    operator := "Maersk"
    capacity := 3000
    fuel_level := 60
    daily_fuel_consumption := 100
    max_speed := 15
    daily_revenue := 100000
    latitude := 0
    longitude := 0
    speed := 20
    heading := 0
    status := .at_anchor
    etaHours := 24
    lastDepartureHoursAgo := 10
    ais_signal_quality := 90
    compliance_violations := 0
    cargoLoad := 1500 }

/-- A concrete creation draw for an underway container ship. -/
def underwayInitDraws : VesselInitDraws :=
  { anchorInitDraws with max_speed := 20, speed := 10, status := .underway }

/-- The at-anchor vessel created from `anchorInitDraws`. -/
def exVesselAnchor : Vessel := initializeVessel 1 anchorInitDraws

/-- The underway vessel created from `underwayInitDraws`. -/
def exVesselUnderway : Vessel := initializeVessel 0 underwayInitDraws

/-- The same vessel, docked in port. -/
def exVesselInPort : Vessel := { exVesselUnderway with status := .in_port }

/-- A concrete tick draw: no transition fires, heading 0 (cos 1, sin 0). -/
def exMoveEnv : MoveEnv :=
  { speedVariation := 0
    arrive := false
    arrivalToPort := true
    arrivalSpeed := 0
    getBerth := false
    waitSpeed := 0
    depart := false
    departSpeed := 8
    etaOffsetHours := 0
    now := 0
    cosHeading := 1
    sinHeading := 0 }

/-- A concrete port state: 10 berths, 80% occupancy, 6 ships queued —
the worked example of the spec (§8). -/
def exPort : Port :=
  { code := "SGSIN"
    name := "Singapore"
    country := "Singapore"
    country_code := "SG"
    latitude := 1290 / 1000
    longitude := 103851 / 1000
    berth_capacity := 10
    current_occupancy := 80
    queue_length := 6
    avg_turnaround_container := 20
    avg_turnaround_bulk := 40
    avg_turnaround_tanker := 30
    throughput_teu_per_hour := 100
    inspection_rate := 20 }

/-- A concrete port draw with both random-walk steps equal to zero. -/
def exPortEnv : PortEnv := ⟨0, 0⟩

/-- Counters before any cargo movement has been recorded. -/
def zeroCounters : Counters := ⟨fun _ => 0, fun _ => 0⟩

/-- A concrete full-tick environment built from the draws above. -/
def exTickEnv : TickEnv :=
  { moveEnvs := fun _ => exMoveEnv
    portEnvs := fun _ => exPortEnv
    cargoDraw := none
    speedLimits := fun _ => 15
    aisDeltas := fun _ => 0 }

/-- A concrete one-vessel, one-port simulation state. -/
def exSimState : SimState := ⟨[exVesselUnderway], [exPort], zeroCounters⟩

/-! ## Helper lemmas -/

theorem frameEq_refl (v : Vessel) : FrameEq v v := by
  simp [FrameEq]

theorem frameEq_trans {v w u : Vessel} (h1 : FrameEq v w) (h2 : FrameEq w u) :
    FrameEq v u := by
  obtain ⟨a1, b1, c1, d1, e1, f1, g1, i1, j1⟩ := h1
  obtain ⟨a2, b2, c2, d2, e2, f2, g2, i2, j2⟩ := h2
  exact ⟨a2.trans a1, b2.trans b1, c2.trans c1, d2.trans d1, e2.trans e1,
    f2.trans f1, g2.trans g1, i2.trans i1, j2.trans j1⟩

theorem statusStep_frame (v : Vessel) (e : MoveEnv) : FrameEq v (statusStep v e) := by
  cases hv : v.status <;> cases ha : e.arrive <;> cases hb : e.getBerth <;>
    cases hd : e.depart <;> simp [FrameEq, statusStep, hv, ha, hb, hd]

theorem statusStep_keeps (v : Vessel) (e : MoveEnv) :
    (statusStep v e).latitude = v.latitude ∧ (statusStep v e).longitude = v.longitude ∧
    (statusStep v e).fuel_level = v.fuel_level ∧ (statusStep v e).max_speed = v.max_speed := by
  cases hv : v.status <;> cases ha : e.arrive <;> cases hb : e.getBerth <;>
    cases hd : e.depart <;> simp [statusStep, hv, ha, hb, hd]

theorem fuelStep_frame (v : Vessel) : FrameEq v (fuelStep v) := by
  simp [FrameEq, fuelStep]

theorem fuelStep_fuel_eq (v : Vessel) :
    (fuelStep v).fuel_level = max 0 (v.fuel_level - (1 / 1000 + v.speed / v.max_speed * (1 / 100))) :=
  rfl

theorem fuelStep_speed (v : Vessel) : (fuelStep v).speed = v.speed := rfl

theorem fuelStep_max_speed (v : Vessel) : (fuelStep v).max_speed = v.max_speed := rfl

theorem fuelStep_latitude (v : Vessel) : (fuelStep v).latitude = v.latitude := rfl

theorem fuelStep_longitude (v : Vessel) : (fuelStep v).longitude = v.longitude := rfl

theorem moveStep_frame (v : Vessel) (e : MoveEnv) : FrameEq v (moveStep v e) := by
  by_cases h : 0 < v.speed <;> simp [FrameEq, moveStep, h]

theorem moveStep_keeps (v : Vessel) (e : MoveEnv) :
    (moveStep v e).speed = v.speed ∧ (moveStep v e).fuel_level = v.fuel_level ∧
    (moveStep v e).max_speed = v.max_speed ∧ (moveStep v e).status = v.status := by
  by_cases h : 0 < v.speed <;> simp [moveStep, h]

theorem customsVessel_frame (v : Vessel) (speed_limit aisDelta : ℚ) :
    FrameEq v (updateCustomsVessel v speed_limit aisDelta).1 := by
  simp [FrameEq, updateCustomsVessel]

theorem sim_frame (v : Vessel) (e : MoveEnv) : FrameEq v (simulateVesselMovement v e) :=
  frameEq_trans (frameEq_trans (statusStep_frame v e) (fuelStep_frame (statusStep v e)))
    (moveStep_frame (fuelStep (statusStep v e)) e)

theorem sim_max_speed (v : Vessel) (e : MoveEnv) :
    (simulateVesselMovement v e).max_speed = v.max_speed := by
  have h1 := (moveStep_keeps (fuelStep (statusStep v e)) e).2.2.1
  have h2 := (statusStep_keeps v e).2.2.2
  calc (simulateVesselMovement v e).max_speed
      = (fuelStep (statusStep v e)).max_speed := h1
    _ = (statusStep v e).max_speed := rfl
    _ = v.max_speed := h2

theorem mapIdxFrom_getElem? (f : ℕ → α → β) :
    ∀ (l : List α) (k i : ℕ), (mapIdxFrom f k l)[i]? = (l[i]?).map (f (k + i)) := by
  intro l
  induction l with
  | nil => intro k i; simp [mapIdxFrom]
  | cons a as ih =>
      intro k i
      cases i with
      | zero => simp [mapIdxFrom]
      | succ n =>
          have := ih (k + 1) n
          simp only [mapIdxFrom, List.getElem?_cons_succ, this]
          have harith : k + 1 + n = k + (n + 1) := by omega
          rw [harith]

theorem statusStep_speed_bounds (smax : ℚ) (v : Vessel) (e : MoveEnv)
    (h8 : 8 ≤ v.max_speed) (hms : v.max_speed ≤ smax)
    (he : ValidMoveEnv v.max_speed e) (h0 : 0 ≤ v.speed) (h1 : v.speed ≤ smax) :
    0 ≤ (statusStep v e).speed ∧ (statusStep v e).speed ≤ smax := by
  obtain ⟨hsv1, hsv2, har1, har2, hw1, hw2, hdp1, hdp2, _, _, _, _, _, _⟩ := he
  cases hv : v.status
  · cases ha : e.arrive
    · simp only [statusStep, hv, ha, Bool.false_eq_true, if_false]
      refine ⟨le_max_left 0 _, max_le (by linarith) ((min_le_left _ _).trans hms)⟩
    · simp only [statusStep, hv, ha, if_true]
      exact ⟨har1, by linarith⟩
  · simp only [statusStep, hv]
    exact ⟨h0, h1⟩
  · cases hd : e.depart
    · simp only [statusStep, hv, hd, Bool.false_eq_true, if_false]
      exact ⟨le_refl 0, by linarith⟩
    · simp only [statusStep, hv, hd, if_true]
      exact ⟨by linarith, by linarith⟩
  · cases hb : e.getBerth <;>
      simp only [statusStep, hv, hb, Bool.false_eq_true, if_false, if_true] <;>
      exact ⟨hw1, by linarith⟩

theorem moveStep_pos_bounds (v : Vessel) (e : MoveEnv)
    (hla1 : -90 ≤ v.latitude) (hla2 : v.latitude ≤ 90)
    (hlo1 : -180 ≤ v.longitude) (hlo2 : v.longitude ≤ 180) :
    -90 ≤ (moveStep v e).latitude ∧ (moveStep v e).latitude ≤ 90 ∧
    -180 ≤ (moveStep v e).longitude ∧ (moveStep v e).longitude ≤ 180 := by
  by_cases h : 0 < v.speed
  · simp only [moveStep, if_pos h]
    exact ⟨le_max_left _ _, max_le (by norm_num) (min_le_left _ _),
      le_max_left _ _, max_le (by norm_num) (min_le_left _ _)⟩
  · simp only [moveStep, if_neg h]
    exact ⟨hla1, hla2, hlo1, hlo2⟩

theorem sim_inv (smax : ℚ) (v : Vessel) (e : MoveEnv)
    (h8 : 8 ≤ v.max_speed) (hms : v.max_speed ≤ smax)
    (he : ValidMoveEnv v.max_speed e) (hv : VesselNumInv smax v) :
    VesselNumInv smax (simulateVesselMovement v e) := by
  simp only [VesselNumInv] at hv
  obtain ⟨la1, la2, lo1, lo2, sp1, sp2, fu1, fu2⟩ := hv
  obtain ⟨hlat, hlon, hfuel, hmsp⟩ := statusStep_keeps v e
  obtain ⟨hs0, hs1⟩ := statusStep_speed_bounds smax v e h8 hms he sp1 sp2
  have hfla1 : -90 ≤ (fuelStep (statusStep v e)).latitude := by
    rw [fuelStep_latitude, hlat]; exact la1
  have hfla2 : (fuelStep (statusStep v e)).latitude ≤ 90 := by
    rw [fuelStep_latitude, hlat]; exact la2
  have hflo1 : -180 ≤ (fuelStep (statusStep v e)).longitude := by
    rw [fuelStep_longitude, hlon]; exact lo1
  have hflo2 : (fuelStep (statusStep v e)).longitude ≤ 180 := by
    rw [fuelStep_longitude, hlon]; exact lo2
  have hmb := moveStep_pos_bounds (fuelStep (statusStep v e)) e hfla1 hfla2 hflo1 hflo2
  have hkeep := moveStep_keeps (fuelStep (statusStep v e)) e
  have hrate : 0 ≤ 1 / 1000 + (statusStep v e).speed / (statusStep v e).max_speed * (1 / 100) := by
    have hdiv : 0 ≤ (statusStep v e).speed / (statusStep v e).max_speed :=
      div_nonneg hs0 (by rw [hmsp]; linarith)
    linarith
  have hfu0 : 0 ≤ (fuelStep (statusStep v e)).fuel_level := le_max_left _ _
  have hfu100 : (fuelStep (statusStep v e)).fuel_level ≤ 100 := by
    rw [fuelStep_fuel_eq]
    refine max_le (by norm_num) ?_
    rw [hfuel]
    linarith
  have hspeed : (simulateVesselMovement v e).speed = (statusStep v e).speed :=
    hkeep.1.trans (fuelStep_speed _)
  have hfl : (simulateVesselMovement v e).fuel_level = (fuelStep (statusStep v e)).fuel_level :=
    hkeep.2.1
  simp only [VesselNumInv]
  refine ⟨hmb.1, hmb.2.1, hmb.2.2.1, hmb.2.2.2, ?_, ?_, ?_, ?_⟩
  · rw [hspeed]; exact hs0
  · rw [hspeed]; exact hs1
  · rw [hfl]; exact hfu0
  · rw [hfl]; exact hfu100

theorem runVessel_inv (smax : ℚ) (envs : List MoveEnv) :
    ∀ v : Vessel, 8 ≤ v.max_speed → v.max_speed ≤ smax →
      (∀ e ∈ envs, ValidMoveEnv v.max_speed e) → VesselNumInv smax v →
      VesselNumInv smax (runVessel v envs) := by
  induction envs with
  | nil =>
      intro v _ _ _ hv
      simpa [runVessel] using hv
  | cons e rest ih =>
      intro v h8 hms he hv
      have h1 := sim_inv smax v e h8 hms (he e (List.mem_cons_self e rest)) hv
      have hm := sim_max_speed v e
      have h2 := ih (simulateVesselMovement v e) (by rw [hm]; exact h8) (by rw [hm]; exact hms)
        (by intro e' he'; rw [hm]; exact he e' (List.mem_cons_of_mem e he')) h1
      simpa [runVessel, List.foldl_cons] using h2

theorem vesselTypes_min_speed_ge : ∀ t ∈ vesselTypes, (8 : ℚ) ≤ t.min_speed := by
  decide

theorem counters_after_tick (s : SimState) (e : TickEnv) :
    (updateAllMetrics s e).counters = updateTradeCounters s.counters e.cargoDraw := by
  simp [updateAllMetrics, updateCustomsMetrics, updatePortAuthorityAll,
    updateShippingCompanyMetrics]

theorem updateTradeCounters_mono (c : Counters) (d : Option CargoDraw)
    (k : CargoKey) (r : RouteKey) :
    c.cargo_volume_by_type k ≤ (updateTradeCounters c d).cargo_volume_by_type k ∧
    c.trade_route_volume r ≤ (updateTradeCounters c d).trade_route_volume r := by
  cases d with
  | none => exact ⟨le_refl _, le_refl _⟩
  | some dr =>
      constructor
      · by_cases hk : k = ⟨dr.port_code, dr.cargo_type, dr.origin_country, dr.destination_country⟩ <;>
          simp [updateTradeCounters, hk]
      · by_cases hr : r = ⟨dr.origin_port, dr.destination_port, dr.cargo_type⟩ <;>
          simp [updateTradeCounters, hr]

theorem tick_vessels_getElem? (s : SimState) (e : TickEnv) (i : ℕ) :
    (updateAllMetrics s e).vessels[i]? = (s.vessels[i]?).map
      (fun v => (updateCustomsVessel (simulateVesselMovement v (e.moveEnvs i))
        (e.speedLimits i) (e.aisDeltas i)).1) := by
  simp only [updateAllMetrics, updateCustomsMetrics, updatePortAuthorityAll,
    updateShippingCompanyMetrics, mapIdxFrom_getElem?, Nat.zero_add, Option.map_map]
  rfl

/-! ## Claims -/

/-- Claim C1, counterexample.  The claim asserts `speed ∈ [0, max_speed]`
for every vessel including the initial state produced at creation.  It
is false there: `_initialize_vessels` draws the vessel's own `max_speed`
from `uniform(type.min_speed, type.max_speed)` but draws the initial
`speed` from `uniform(0, type.max_speed)` (line 183), so a container
ship with `max_speed = 15` may start with `speed = 20`.  The draws below
are inside every documented random range, yet the created vessel
violates `speed ≤ max_speed`. -/
theorem initial_speed_can_exceed_max_speed :
    ValidVesselInitDraws anchorInitDraws ∧
    ¬ (initializeVessel 1 anchorInitDraws).speed ≤ (initializeVessel 1 anchorInitDraws).max_speed := by
  decide

/-- Claim C1, amended.  For every vessel created from draws within the
initialization ranges, and at the end of every tick whose draws are
within the movement ranges: latitude stays in `[-90, 90]`, longitude in
`[-180, 180]`, fuel_level in `[0, 100]`, and speed in `[0, T]` where `T`
is the vessel TYPE's maximum-speed table entry (the bound actually used
for the initial speed draw) — rather than the vessel's own `max_speed`,
which the initial speed can exceed. -/
theorem vessel_numeric_bounds (i : ℕ) (d : VesselInitDraws)
    (hd : ValidVesselInitDraws d) (envs : List MoveEnv)
    (he : ∀ e ∈ envs, ValidMoveEnv d.max_speed e) :
    VesselNumInv d.typeData.max_speed (runVessel (initializeVessel i d) envs) := by
  obtain ⟨htd, _, _, hf1, hf2, _, _, hms1, hms2, _, _, hla1, hla2, hlo1, hlo2,
    hsp1, hsp2, _, _, _, _, _⟩ := hd
  have h8 : (8 : ℚ) ≤ d.max_speed :=
    le_trans (vesselTypes_min_speed_ge d.typeData htd) hms1
  have hinv : VesselNumInv d.typeData.max_speed (initializeVessel i d) := by
    simp only [VesselNumInv, initializeVessel]
    exact ⟨by linarith, by linarith, hlo1, hlo2, hsp1, hsp2, by linarith, by linarith⟩
  exact runVessel_inv d.typeData.max_speed envs (initializeVessel i d) h8 hms2 he hinv

/-- Witness for the amended C1 theorem at a concrete creation draw and a
single concrete tick. -/
theorem vessel_numeric_bounds_witness :
    ValidVesselInitDraws underwayInitDraws
    ∧ (∀ e ∈ [exMoveEnv], ValidMoveEnv underwayInitDraws.max_speed e)
    ∧ VesselNumInv underwayInitDraws.typeData.max_speed
        (runVessel (initializeVessel 0 underwayInitDraws) [exMoveEnv]) :=
  ⟨by decide, by decide,
    vessel_numeric_bounds 0 underwayInitDraws (by decide) [exMoveEnv] (by decide)⟩

/-- Claim C2, counterexample.  The claim asserts that a tick changes
latitude/longitude only for vessels whose status is UNDERWAY; but the
position update in `_simulate_vessel_movement` (line 534) is guarded by
`vessel['speed'] > 0` alone, so an AT_ANCHOR vessel with positive speed
moves: here a valid at-anchor vessel's latitude changes in one tick. -/
theorem anchored_vessel_position_changes :
    exVesselAnchor.status = .at_anchor ∧
    (simulateVesselMovement exVesselAnchor exMoveEnv).latitude ≠ exVesselAnchor.latitude := by
  refine ⟨rfl, ?_⟩
  norm_num [simulateVesselMovement, moveStep, fuelStep, statusStep, exVesselAnchor,
    exMoveEnv, anchorInitDraws, initializeVessel, containerTypeData]

/-- Claim C2, amended.  A tick changes a vessel's latitude and longitude
only when the vessel's speed after the status-machine update is
positive, regardless of status: whenever that speed is `≤ 0` the
position is unchanged (the status is never consulted by the movement
guard, so AT_ANCHOR or WAITING_BERTH vessels with positive speed do
move). -/
theorem position_unchanged_without_speed (v : Vessel) (e : MoveEnv)
    (h : (statusStep v e).speed ≤ 0) :
    (simulateVesselMovement v e).latitude = v.latitude ∧
    (simulateVesselMovement v e).longitude = v.longitude := by
  have hns : ¬ 0 < (fuelStep (statusStep v e)).speed := by
    rw [fuelStep_speed]; exact not_lt.mpr h
  have heq : simulateVesselMovement v e = fuelStep (statusStep v e) := by
    show moveStep _ e = _
    simp [moveStep, hns]
  rw [heq, fuelStep_latitude, fuelStep_longitude]
  exact ⟨(statusStep_keeps v e).1, (statusStep_keeps v e).2.1⟩

/-- Witness for the amended C2 theorem: an in-port vessel that does not
depart has post-update speed 0, and its position is unchanged. -/
theorem position_unchanged_without_speed_witness :
    (statusStep exVesselInPort exMoveEnv).speed ≤ 0 ∧
    ((simulateVesselMovement exVesselInPort exMoveEnv).latitude = exVesselInPort.latitude ∧
     (simulateVesselMovement exVesselInPort exMoveEnv).longitude = exVesselInPort.longitude) :=
  ⟨by decide, position_unchanged_without_speed exVesselInPort exMoveEnv (by decide)⟩

/-- Claim C3.  For every port state with positive berth capacity, the
congestion index published by `_update_port_authority_metrics` equals
`min(100, 70*(occupancy/100) + 30*(queue_length/berth_capacity))`
evaluated at the tick's updated occupancy and queue; and at
occupancy 80, queue 6, capacity 10 it is exactly 74. -/
theorem congestion_index_spec (p : Port) (e : PortEnv) (hc : 0 < p.berth_capacity) :
    (updatePortAuthorityMetrics p e).2.congestion_index
      = min 100 (70 * ((updatePortState p e).current_occupancy / 100)
          + 30 * (((updatePortState p e).queue_length : ℚ) / (p.berth_capacity : ℚ)))
    ∧ (updatePortAuthorityMetrics exPort exPortEnv).2.congestion_index = 74 := by
  constructor
  · show min 100 ((updatePortState p e).current_occupancy / 100 * 70
        + ((updatePortState p e).queue_length : ℚ) / ((updatePortState p e).berth_capacity : ℚ) * 30)
      = _
    have hbc : (updatePortState p e).berth_capacity = p.berth_capacity := rfl
    rw [hbc]
    congr 1
    ring
  · norm_num [updatePortAuthorityMetrics, updatePortState, exPort, exPortEnv]

/-- Witness for C3 at the concrete port (capacity 10, occupancy 80,
queue 6) with zero-step random-walk draws. -/
theorem congestion_index_spec_witness :
    0 < exPort.berth_capacity ∧
    ((updatePortAuthorityMetrics exPort exPortEnv).2.congestion_index
      = min 100 (70 * ((updatePortState exPort exPortEnv).current_occupancy / 100)
          + 30 * (((updatePortState exPort exPortEnv).queue_length : ℚ) / (exPort.berth_capacity : ℚ)))
    ∧ (updatePortAuthorityMetrics exPort exPortEnv).2.congestion_index = 74) :=
  ⟨by decide, congestion_index_spec exPort exPortEnv (by decide)⟩

/-- Claim C4.  The compliance score published by
`_update_customs_metrics` is the arithmetic mean of three factors: 100
if no speed violation was flagged this tick and 70 otherwise, the
vessel's current (post-walk) AIS signal quality, and 90 when
`compliance_violations = 0` otherwise `max(60, 90 - 10*violations)`;
with no violation, signal quality 90 and zero recorded violations the
score is `280/3 = 93.33…`. -/
theorem compliance_score_spec (v : Vessel) (speed_limit aisDelta : ℚ) :
    (updateCustomsVessel v speed_limit aisDelta).2
      = ((if speed_limit < v.speed then (70 : ℚ) else 100)
          + (updateCustomsVessel v speed_limit aisDelta).1.ais_signal_quality
          + (if v.compliance_violations = 0 then (90 : ℚ)
             else max 60 (90 - 10 * (v.compliance_violations : ℚ)))) / 3
    ∧ (updateCustomsVessel exVesselUnderway 15 0).2 = 280 / 3 := by
  constructor
  · by_cases h1 : speed_limit < v.speed <;> by_cases h2 : v.compliance_violations = 0 <;>
      simp [updateCustomsVessel, complianceScore, complianceFactors, h1, h2] <;> ring
  · norm_num [updateCustomsVessel, complianceScore, complianceFactors, exVesselUnderway,
      underwayInitDraws, anchorInitDraws, initializeVessel, containerTypeData]

/-- Claim C5.  After every tick, a port with positive berth capacity has
occupancy in `[20, 100]`, an integer queue length in
`[0, berth_capacity]`, and a congestion index in `[0, 100]`. -/
theorem port_bounds_inv (p : Port) (e : PortEnv) (hc : 0 < p.berth_capacity) :
    20 ≤ (updatePortState p e).current_occupancy ∧
    (updatePortState p e).current_occupancy ≤ 100 ∧
    0 ≤ (updatePortState p e).queue_length ∧
    (updatePortState p e).queue_length ≤ (p.berth_capacity : ℤ) ∧
    0 ≤ (updatePortAuthorityMetrics p e).2.congestion_index ∧
    (updatePortAuthorityMetrics p e).2.congestion_index ≤ 100 := by
  have h20 : (20 : ℚ) ≤ (updatePortState p e).current_occupancy := le_max_left _ _
  have h100 : (updatePortState p e).current_occupancy ≤ 100 :=
    max_le (by norm_num) (min_le_left _ _)
  have hq0 : (0 : ℤ) ≤ (updatePortState p e).queue_length := le_max_left _ _
  have hqc : (updatePortState p e).queue_length ≤ (p.berth_capacity : ℤ) :=
    max_le (Int.natCast_nonneg _) (min_le_left _ _)
  have hcong_le : (updatePortAuthorityMetrics p e).2.congestion_index ≤ 100 :=
    min_le_left _ _
  have hcong_ge : 0 ≤ (updatePortAuthorityMetrics p e).2.congestion_index := by
    show 0 ≤ min 100 ((updatePortState p e).current_occupancy / 100 * 70
      + ((updatePortState p e).queue_length : ℚ) / ((updatePortState p e).berth_capacity : ℚ) * 30)
    refine le_min (by norm_num) ?_
    have t1 : 0 ≤ (updatePortState p e).current_occupancy / 100 * 70 := by
      have h0 : (0 : ℚ) ≤ (updatePortState p e).current_occupancy := by linarith
      exact mul_nonneg (div_nonneg h0 (by norm_num)) (by norm_num)
    have t2 : 0 ≤ ((updatePortState p e).queue_length : ℚ) /
        ((updatePortState p e).berth_capacity : ℚ) * 30 := by
      refine mul_nonneg (div_nonneg ?_ ?_) (by norm_num)
      · exact_mod_cast hq0
      · exact Nat.cast_nonneg _
    linarith
  exact ⟨h20, h100, hq0, hqc, hcong_ge, hcong_le⟩

/-- Witness for C5 at the concrete port and zero-step draws. -/
theorem port_bounds_inv_witness :
    0 < exPort.berth_capacity ∧
    (20 ≤ (updatePortState exPort exPortEnv).current_occupancy ∧
     (updatePortState exPort exPortEnv).current_occupancy ≤ 100 ∧
     0 ≤ (updatePortState exPort exPortEnv).queue_length ∧
     (updatePortState exPort exPortEnv).queue_length ≤ (exPort.berth_capacity : ℤ) ∧
     0 ≤ (updatePortAuthorityMetrics exPort exPortEnv).2.congestion_index ∧
     (updatePortAuthorityMetrics exPort exPortEnv).2.congestion_index ≤ 100) :=
  ⟨by decide, port_bounds_inv exPort exPortEnv (by decide)⟩

/-- Claim C6.  The cumulative cargo-volume and trade-route counters are
monotonically non-decreasing across any sequence of ticks: every
labeled counter value after running any list of ticks is at least its
value before. -/
theorem trade_counters_monotone (s : SimState) (envs : List TickEnv)
    (k : CargoKey) (r : RouteKey) :
    s.counters.cargo_volume_by_type k ≤ (runTicks s envs).counters.cargo_volume_by_type k ∧
    s.counters.trade_route_volume r ≤ (runTicks s envs).counters.trade_route_volume r := by
  induction envs generalizing s with
  | nil => exact ⟨le_refl _, le_refl _⟩
  | cons e rest ih =>
      have h1 := updateTradeCounters_mono s.counters e.cargoDraw k r
      have h2 := ih (updateAllMetrics s e)
      rw [counters_after_tick] at h2
      have hrt : runTicks s (e :: rest) = runTicks (updateAllMetrics s e) rest := rfl
      rw [hrt]
      exact ⟨le_trans h1.1 h2.1, le_trans h1.2 h2.2⟩

/-- Claim C7.  On every tick and for every vessel, the new fuel level is
`max(0, fuel - (0.001 + (speed/max_speed) * 0.01))` — a base rate plus a
term proportional to speed over max speed, floored at 0 — where `speed`
is the tick's post-status-update speed; consequently the fuel level is
never negative. -/
theorem fuel_floor_spec (v : Vessel) (e : MoveEnv) :
    (simulateVesselMovement v e).fuel_level
      = max 0 (v.fuel_level - (1 / 1000 + (statusStep v e).speed / v.max_speed * (1 / 100)))
    ∧ 0 ≤ (simulateVesselMovement v e).fuel_level := by
  obtain ⟨hlat, hlon, hfuel, hmsp⟩ := statusStep_keeps v e
  have h1 : (simulateVesselMovement v e).fuel_level
      = (fuelStep (statusStep v e)).fuel_level :=
    (moveStep_keeps (fuelStep (statusStep v e)) e).2.1
  rw [h1, fuelStep_fuel_eq, hfuel, hmsp]
  exact ⟨rfl, le_max_left _ _⟩

/-- Claim C8.  `_generate_historical_data` executes the full per-tick
update (`_update_all_metrics`: vessel movement, port dynamics, and
compliance/trade derivation) exactly 144 times: it equals running the
tick over the 144-element environment list, and that list has length
144.  In `main`, this happens inside the exporter constructor, before
`start_http_server` and before the live 300-second loop starts. -/
theorem bootstrap_runs_144_ticks (envs : ℕ → TickEnv) (s : SimState) :
    generateHistoricalData envs s = runTicks s ((List.range 144).map envs)
    ∧ ((List.range 144).map envs).length = 144 := by
  constructor
  · simp [generateHistoricalData, runTicks, List.foldl_map]
  · simp

/-- Claim C9.  Across any sequence of ticks, every vessel keeps its
creation values of `id`, `type`, `operator`, `flag`, `capacity`,
`daily_fuel_consumption`, `daily_revenue`, `current_cargo` and
`compliance_violations`: no step of the per-tick update writes them. -/
theorem vessel_static_fields (s : SimState) (envs : List TickEnv) (i : ℕ) (v : Vessel)
    (hv : s.vessels[i]? = some v) :
    ∃ w, (runTicks s envs).vessels[i]? = some w ∧ FrameEq v w := by
  induction envs generalizing s v with
  | nil => exact ⟨v, hv, frameEq_refl v⟩
  | cons e rest ih =>
      have h1 := tick_vessels_getElem? s e i
      rw [hv, Option.map_some'] at h1
      have hf1 : FrameEq v (updateCustomsVessel (simulateVesselMovement v (e.moveEnvs i))
          (e.speedLimits i) (e.aisDeltas i)).1 :=
        frameEq_trans (sim_frame v (e.moveEnvs i)) (customsVessel_frame _ _ _)
      obtain ⟨w, hw, hfw⟩ := ih (updateAllMetrics s e) _ h1
      exact ⟨w, hw, frameEq_trans hf1 hfw⟩

/-- Witness for C9: one concrete vessel through one concrete tick. -/
theorem vessel_static_fields_witness :
    exSimState.vessels[0]? = some exVesselUnderway ∧
    ∃ w, (runTicks exSimState [exTickEnv]).vessels[0]? = some w ∧ FrameEq exVesselUnderway w :=
  ⟨rfl, vessel_static_fields exSimState [exTickEnv] 0 exVesselUnderway rfl⟩

/-- Claim C10.  A vessel that is IN_PORT at the start of a tick and does
not take the departure transition (the 5% draw fails) ends the tick
with speed exactly 0: the in-port branch forces `speed = 0` on every
tick, and the later steps do not change it. -/
theorem in_port_stay_speed_zero (v : Vessel) (e : MoveEnv)
    (hs : v.status = .in_port) (hd : e.depart = false) :
    (simulateVesselMovement v e).speed = 0 := by
  have h1 : (statusStep v e).speed = 0 := by
    simp [statusStep, hs, hd]
  have h2 : (fuelStep (statusStep v e)).speed = 0 := (fuelStep_speed _).trans h1
  exact ((moveStep_keeps (fuelStep (statusStep v e)) e).1).trans h2

/-- Witness for C10 at a concrete docked vessel with a failing departure
draw. -/
theorem in_port_stay_speed_zero_witness :
    (exVesselInPort.status = .in_port ∧ exMoveEnv.depart = false) ∧
    (simulateVesselMovement exVesselInPort exMoveEnv).speed = 0 :=
  ⟨⟨rfl, rfl⟩, in_port_stay_speed_zero exVesselInPort exMoveEnv rfl rfl⟩

end Maritime
